import Mathlib

/-!
Verification development for the esthelogy admin console (`app.py`).

The program is a single-file UI over three external services: a REST API
behind one base URL, a vector index for question-similarity lookups, and
an embedding-generation API.  We embed the remote-call wrappers as pure
functions over an explicit model of the HTTP exchange: a `ReqResult`
records what the one `requests.*` call of a wrapper produced (either an
exception while making the request, or a status code together with the
parse result of the body), and each wrapper maps that to its Python
return value.  Wrappers whose bodies are wrapped in `try/except` return
plain values; wrappers with no handler return `Except String _`, whose
`error` constructor is an exception propagating to the caller.
-/

set_option autoImplicit false

/-- A JSON value as handled by the app (the payloads are treated as opaque
JSON; numbers only ever compared to zero for truthiness, so `Int` suffices). -/
inductive JValue where
  | null
  | bool (b : Bool)
  | num (n : Int)
  | str (s : String)
  | arr (elems : List JValue)
  | obj (fields : List (String × JValue))

/-- First-match lookup in a JSON object's field list (Python dict access). -/
def JValue.lookup : List (String × JValue) → String → Option JValue
  | [], _ => none
  | (k, v) :: rest, key => if k = key then some v else JValue.lookup rest key

/-- Python `d.get(key)`: `AttributeError` (modelled as `.error`) when the
value is not a dict, otherwise the field or `None`. -/
def jGet : JValue → String → Except String (Option JValue)
  | .obj fs, k => .ok (JValue.lookup fs k)
  | _, _ => .error "AttributeError"

/-- Python `d.get(key, default)`. -/
def jGetD (v : JValue) (k : String) (d : JValue) : Except String JValue :=
  match jGet v k with
  | .error e => .error e
  | .ok o => .ok (o.getD d)

/-- Python `d[key]` where any failure (non-dict, missing key) raises; the
callers in the source catch that exception, so `none` stands for the raise. -/
def jIndex : JValue → String → Option JValue
  | .obj fs, k => JValue.lookup fs k
  | _, _ => none

/-- Python truthiness of a JSON value. -/
def truthy : JValue → Bool
  | .null => false
  | .bool b => b
  | .num n => n != 0
  | .str s => !s.isEmpty
  | .arr xs => !xs.isEmpty
  | .obj fs => !fs.isEmpty

/-- Truthiness of an optional JSON value (`None` is falsy). -/
def jtruthy : Option JValue → Bool
  | none => false
  | some v => truthy v

/-- Outcome of the single `requests.*` call a wrapper makes: either an
exception raised while making the request, or a response with its status
code and the result of `response.json()` (`none` when parsing raises). -/
inductive ReqResult where
  | exn (msg : String)
  | resp (status : Nat) (json : Option JValue)

inductive HttpMethod where
  | get
  | post
  | put
  | delete
deriving DecidableEq

/-- The observable content of one outgoing HTTP request. -/
structure HttpRequest where
  method : HttpMethod
  url : String
  jsonBody : Option JValue := none
  params : List (String × JValue) := []
  formData : List (String × String) := []
  hasFiles : Bool := false
  authToken : Option String := none

/-- `handle_api_response` (app.py:86): `raise_for_status` raises exactly for
a status in 400-599 (`requests` checks the 4xx and 5xx ranges; any other
deliverable status, 600-999 included, does not raise); that `HTTPError` is
caught and `None` returned, but rendering the error message calls
`response.json().get("message", ...)`, which itself raises out of the
handler when the body is unparseable or not a dict.  On a non-raising
status the function returns `response.json()`, whose parse failure
likewise propagates. -/
def handle_api_response (status : Nat) (json : Option JValue) :
    Except String (Option JValue) :=
  if 400 ≤ status ∧ status < 600 then
    match json with
    | some (.obj _) => .ok none
    | some _ => .error "AttributeError"
    | none => .error "JSONDecodeError"
  else
    match json with
    | some body => .ok (some body)
    | none => .error "JSONDecodeError"

/-- `text.replace("\n", " ")` from `get_embedding` (app.py:106); the pattern
is a single character, so the replacement is a character map. -/
def normalize_text (s : String) : String :=
  ⟨s.data.map (fun c => if c = '\n' then ' ' else c)⟩

/-- `get_embedding` (app.py:103): replaces newlines by spaces, asks the
embedding service (the `oracle`) for the embedding of the normalized text,
and returns `None` when the call raises. -/
def get_embedding (oracle : String → Except String (List Rat)) (text : String) :
    Option (List Rat) :=
  match oracle (normalize_text text) with
  | .error _ => none
  | .ok e => some e

/-- The query `check_similarity` sends (app.py:119): the embedding vector
(`none` when `get_embedding` failed and `None` was passed along), `top_k=1`,
`include_metadata=True`. -/
structure PineconeQuery where
  vector : Option (List Rat)
  top_k : Nat
  include_metadata : Bool

/-- One match of a nearest-neighbor query: a score and a metadata payload. -/
structure QMatch where
  score : Rat
  metadata : JValue

/-- Result of `index.query`: exception or a list of matches. -/
inductive QueryOutcome where
  | err (msg : String)
  | ok (found : List QMatch)

def check_similarity_query (embedding : Option (List Rat)) : PineconeQuery :=
  { vector := embedding, top_k := 1, include_metadata := true }

/-- The default `threshold=0.6` of `check_similarity` (app.py:114). -/
def similarity_threshold_default : Rat := 6 / 10

/-- `check_similarity` (app.py:114): skipped when the module-level `index`
binding is absent; otherwise one `index.query(... top_k=1 ...)`; a match
whose score exceeds the threshold yields `(metadata["question"], score)`;
everything else — query exception, no matches, low score, missing
metadata key (a `KeyError` caught by the same handler) — yields
`(None, None)`. -/
def check_similarity (indexAvailable : Bool) (embedding : Option (List Rat))
    (queryOracle : PineconeQuery → QueryOutcome) (threshold : Rat) :
    Option JValue × Option Rat :=
  if indexAvailable then
    match queryOracle (check_similarity_query embedding) with
    | .err _ => (none, none)
    | .ok [] => (none, none)
    | .ok (m :: _) =>
      if threshold < m.score then
        match jIndex m.metadata "question" with
        | none => (none, none)
        | some q => (some q, some m.score)
      else (none, none)
  else (none, none)

/-- `authenticate` (app.py:864): posts credentials, `raise_for_status`
(raising exactly for a 400-599 status), and returns the parsed body;
`requests.exceptions.RequestException` (request errors, the `HTTPError`
raised for 4xx/5xx, and `requests`' JSON decode error) is caught and
`None` returned. -/
def authenticate (r : ReqResult) : Option JValue :=
  match r with
  | .exn _ => none
  | .resp status json =>
    if 400 ≤ status ∧ status < 600 then none
    else
      match json with
      | none => none
      | some body => some body

/-- `create_quiz` (app.py:129): everything inside `try/except`; on a
successful response with truthy `success` it returns `result.get("quiz")`,
otherwise `None` (the failure branch's `result.get("message", ...)` may
itself raise, which the same handler catches). -/
def create_quiz (r : ReqResult) : Option JValue :=
  match r with
  | .exn _ => none
  | .resp status json =>
    match handle_api_response status json with
    | .error _ => none
    | .ok none => none
    | .ok (some result) =>
      if truthy result then
        match jGet result "success" with
        | .error _ => none
        | .ok s =>
          if truthy (s.getD .null) then
            match jGet result "quiz" with
            | .error _ => none
            | .ok q => q
          else none
      else none

/-- `get_all_quizzes` (app.py:150): on status 200 returns
`data.get("quizzes", {}).get("items", [])`; on any other status logs and
returns `[]`; every exception in the block is caught and `[]` returned. -/
def get_all_quizzes (r : ReqResult) : JValue :=
  match r with
  | .exn _ => .arr []
  | .resp status json =>
    if status = 200 then
      match json with
      | none => .arr []
      | some data =>
        match jGetD data "quizzes" (.obj []) with
        | .error _ => .arr []
        | .ok q =>
          match jGetD q "items" (.arr []) with
          | .error _ => .arr []
          | .ok items => items
    else .arr []

/-- The earlier, shadowed `get_quiz_details` (app.py:173): on status 200
returns `response.json().get("quiz", {})`, and on any other status or any
exception returns the empty dict `{}`. -/
def get_quiz_details_v1 (r : ReqResult) : Option JValue :=
  match r with
  | .exn _ => some (.obj [])
  | .resp status json =>
    if status = 200 then
      match json with
      | none => some (.obj [])
      | some data =>
        match jGetD data "quiz" (.obj []) with
        | .error _ => some (.obj [])
        | .ok v => some v
    else some (.obj [])

/-- The effective `get_quiz_details` (app.py:427, shadowing the earlier
definition): no `try/except`, so a request or parse exception propagates;
returns `response.json().get("quiz", {})` when the status is 200 and the
body's `success` field is truthy, `None` otherwise (on a non-200 status the
`and` short-circuits before `response.json()` is called). -/
def get_quiz_details (r : ReqResult) : Except String (Option JValue) :=
  match r with
  | .exn e => .error e
  | .resp status json =>
    if status = 200 then
      match json with
      | none => .error "JSONDecodeError"
      | some data =>
        match jGet data "success" with
        | .error e => .error e
        | .ok s =>
          if truthy (s.getD .null) then
            match jGetD data "quiz" (.obj []) with
            | .error e => .error e
            | .ok v => .ok (some v)
          else .ok none
    else .ok none

/-- `update_quiz` (app.py:194): inside `try/except`; returns the parsed body
on status 200 and `None` otherwise; exceptions are caught and `None`
returned. -/
def update_quiz (r : ReqResult) : Option JValue :=
  match r with
  | .exn _ => none
  | .resp status json =>
    if status = 200 then
      match json with
      | none => none
      | some data => some data
    else none

/-- `delete_quiz` (app.py:215): inside `try/except`; `True` exactly when the
handled response is a truthy dict with truthy `success`, `False` otherwise
(including every caught exception). -/
def delete_quiz (r : ReqResult) : Bool :=
  match r with
  | .exn _ => false
  | .resp status json =>
    match handle_api_response status json with
    | .error _ => false
    | .ok none => false
    | .ok (some result) =>
      if truthy result then
        match jGet result "success" with
        | .error _ => false
        | .ok s => truthy (s.getD .null)
      else false

/-- `upload_puzzle` (app.py:235): same shape as `create_quiz`, returning
`result.get("puzzle")` on success and `None` otherwise. -/
def upload_puzzle (r : ReqResult) : Option JValue :=
  match r with
  | .exn _ => none
  | .resp status json =>
    match handle_api_response status json with
    | .error _ => none
    | .ok none => none
    | .ok (some result) =>
      if truthy result then
        match jGet result "success" with
        | .error _ => none
        | .ok s =>
          if truthy (s.getD .null) then
            match jGet result "puzzle" with
            | .error _ => none
            | .ok p => p
          else none
      else none

/-- `list_estheticians` (app.py:259): inside `try/except`; returns
`result.get("estheticians", [])` on success and `[]` on every failure or
caught exception. -/
def list_estheticians (r : ReqResult) : JValue :=
  match r with
  | .exn _ => .arr []
  | .resp status json =>
    match handle_api_response status json with
    | .error _ => .arr []
    | .ok none => .arr []
    | .ok (some result) =>
      if truthy result then
        match jGet result "success" with
        | .error _ => .arr []
        | .ok s =>
          if truthy (s.getD .null) then
            match jGetD result "estheticians" (.arr []) with
            | .error _ => .arr []
            | .ok e => e
          else .arr []
      else .arr []

/-- The JSON body `approve_esthetician` sends (app.py:285): `is_approved` as
the strings "true"/"false", and `reason_for_rejection` equal to the supplied
reason only when rejecting, `"N/A"` when approving. -/
def approve_esthetician_body (is_approved : Bool) (reason_for_rejection : String) :
    JValue :=
  .obj [("is_approved", .str (if is_approved then "true" else "false")),
        ("reason_for_rejection",
          .str (if is_approved then "N/A" else reason_for_rejection))]

/-- `approve_esthetician` (app.py:281) return value: the string "true"
exactly when the handled response is a truthy dict with truthy `success`,
"false" otherwise (including every caught exception). -/
def approve_esthetician (is_approved : Bool) (reason_for_rejection : String)
    (r : ReqResult) : String :=
  match r with
  | .exn _ => "false"
  | .resp status json =>
    match handle_api_response status json with
    | .error _ => "false"
    | .ok none => "false"
    | .ok (some result) =>
      if truthy result then
        match jGet result "success" with
        | .error _ => "false"
        | .ok s => if truthy (s.getD .null) then "true" else "false"
      else "false"

/-- Whether `handle_api_response` reports a successful API response: a
response (no request exception) whose handled result is a truthy dict with
a truthy `success` field.  This is the success condition shared by
`create_quiz`, `delete_quiz`, `upload_puzzle`, `list_estheticians` and
`approve_esthetician`. -/
def api_success (r : ReqResult) : Bool :=
  match r with
  | .exn _ => false
  | .resp status json =>
    match handle_api_response status json with
    | .error _ => false
    | .ok none => false
    | .ok (some result) =>
      if truthy result then
        match jGet result "success" with
        | .error _ => false
        | .ok s => truthy (s.getD .null)
      else false

/-- `analyze_skin_condition` (app.py:326): no `try/except`, so a request or
parse exception propagates to the caller; returns the parsed body on status
200 and `None` otherwise. -/
def analyze_skin_condition (r : ReqResult) : Except String (Option JValue) :=
  match r with
  | .exn e => .error e
  | .resp status json =>
    if status = 200 then
      match json with
      | none => .error "JSONDecodeError"
      | some data => .ok (some data)
    else .ok none

/-- `get_quiz_recommendations` (app.py:349): no `try/except`; returns
`response.json().get("quiz_list", [])` on status 200 and `None` otherwise. -/
def get_quiz_recommendations (r : ReqResult) : Except String (Option JValue) :=
  match r with
  | .exn e => .error e
  | .resp status json =>
    if status = 200 then
      match json with
      | none => .error "JSONDecodeError"
      | some data =>
        match jGetD data "quiz_list" (.arr []) with
        | .error e => .error e
        | .ok l => .ok (some l)
    else .ok none

/-- `start_quiz` (app.py:366): inside `try/except` (the handler only prints,
returning `None`); returns `response.json().get("question_details", {})` on
status 200 and `None` otherwise. -/
def start_quiz (r : ReqResult) : Option JValue :=
  match r with
  | .exn _ => none
  | .resp status json =>
    if status = 200 then
      match json with
      | none => none
      | some data =>
        match jGetD data "question_details" (.obj []) with
        | .error _ => none
        | .ok v => some v
    else none

/-- `fetch_next_question` (app.py:385): no `try/except`, so a request or
parse exception propagates; returns
`response.json().get("question_details", {})` on status 200 and `None`
otherwise. -/
def fetch_next_question (r : ReqResult) : Except String (Option JValue) :=
  match r with
  | .exn e => .error e
  | .resp status json =>
    if status = 200 then
      match json with
      | none => .error "JSONDecodeError"
      | some data =>
        match jGetD data "question_details" (.obj []) with
        | .error e => .error e
        | .ok v => .ok (some v)
    else .ok none

/-- `submit_quiz` (app.py:402): no `try/except`; returns the parsed body on
status 200 and `None` otherwise. -/
def submit_quiz (r : ReqResult) : Except String (Option JValue) :=
  match r with
  | .exn e => .error e
  | .resp status json =>
    if status = 200 then
      match json with
      | none => .error "JSONDecodeError"
      | some data => .ok (some data)
    else .ok none

/-- A subsection of the in-progress quiz on the create-quiz page
(app.py:697): a name and the list of accepted question texts. -/
structure QuizSubsection where
  subsection_name : String
  questions : List String
deriving DecidableEq, Repr

/-- A section of the in-progress quiz (app.py:687). -/
structure QuizSection where
  section_name : String
  subsections : List QuizSubsection
deriving DecidableEq, Repr

/-- The `st.session_state["new_quiz"]` value built by `create_quiz_page`
(app.py:676). -/
structure NewQuiz where
  quiz_title : String
  sections : List QuizSection
deriving DecidableEq, Repr

/-- In-place update of the `i`-th element of a list (a Python mutation of a
list element through a reference). -/
def listModify {α : Type} (l : List α) (i : Nat) (f : α → α) : List α :=
  match l, i with
  | [], _ => []
  | x :: xs, 0 => f x :: xs
  | x :: xs, n + 1 => x :: listModify xs n f

/-- `subsection["questions"].append(question_text)` (app.py:718) for the
subsection at position `ssi` of the section at position `si`. -/
def appendQuestion (quiz : NewQuiz) (si ssi : Nat) (question_text : String) :
    NewQuiz :=
  { quiz with
    sections := listModify quiz.sections si (fun sec =>
      { sec with
        subsections := listModify sec.subsections ssi (fun sub =>
          { sub with questions := sub.questions ++ [question_text] }) }) }

/-- The "Add Question" handler of `create_quiz_page` (app.py:711-721): with
an empty question text nothing happens; otherwise the text is embedded, the
similarity gate is consulted with the default threshold, and the question is
appended only when `if similar_question:` is falsy — i.e. when the gate
returned `None` or an untruthy metadata value. -/
def add_question_click (quiz : NewQuiz) (si ssi : Nat) (question_text : String)
    (indexAvailable : Bool) (embedOracle : String → Except String (List Rat))
    (queryOracle : PineconeQuery → QueryOutcome) : NewQuiz :=
  if question_text.isEmpty then quiz
  else
    let embedding := get_embedding embedOracle question_text
    let res := check_similarity indexAvailable embedding queryOracle
      similarity_threshold_default
    if jtruthy res.1 then quiz
    else appendQuestion quiz si ssi question_text

/-- The URL `show_login_page` passes to `authenticate` (app.py:841). -/
def show_login_page_api_url (api_base_url : String) : String :=
  api_base_url ++ "/user/login"

/-- The request `authenticate` (app.py:864) posts to the URL it is given. -/
def authenticate_request (api_url username password : String) : HttpRequest :=
  { method := .post, url := api_url,
    jsonBody := some (.obj [("email", .str username),
                            ("password", .str password)]) }

/-- The request `create_quiz` (app.py:131) posts. -/
def create_quiz_request (api_base_url auth_token : String) (quiz_data : JValue) :
    HttpRequest :=
  { method := .post, url := api_base_url ++ "/quiz/create",
    jsonBody := some quiz_data, authToken := some auth_token }

/-- The request `get_all_quizzes` (app.py:155) issues. -/
def get_all_quizzes_request (api_base_url auth_token : String) (page size : Int) :
    HttpRequest :=
  { method := .get, url := api_base_url ++ "/quiz/list",
    params := [("page", .num page), ("size", .num size)],
    authToken := some auth_token }

/-- The request both `get_quiz_details` definitions (app.py:180 and
app.py:430) issue. -/
def get_quiz_details_request (api_base_url auth_token quiz_id : String) :
    HttpRequest :=
  { method := .get, url := api_base_url ++ ("/quiz/" ++ quiz_id),
    authToken := some auth_token }

/-- The request `update_quiz` (app.py:196) issues. -/
def update_quiz_request (api_base_url auth_token quiz_id : String)
    (quiz_data : JValue) : HttpRequest :=
  { method := .put, url := api_base_url ++ ("/quiz/" ++ quiz_id),
    jsonBody := some quiz_data, authToken := some auth_token }

/-- The request `delete_quiz` (app.py:217) issues. -/
def delete_quiz_request (api_base_url auth_token quiz_id : String) : HttpRequest :=
  { method := .delete, url := api_base_url ++ ("/quiz/" ++ quiz_id),
    authToken := some auth_token }

/-- The request `upload_puzzle` (app.py:239) issues. -/
def upload_puzzle_request (api_base_url auth_token quiz_id : String) : HttpRequest :=
  { method := .post, url := api_base_url ++ "/admin/quiz/puzzle/upload",
    formData := [("quiz_id", quiz_id)], hasFiles := true,
    authToken := some auth_token }

/-- The request `list_estheticians` (app.py:261) issues. -/
def list_estheticians_request (api_base_url auth_token : String)
    (page limitArg : Int) : HttpRequest :=
  { method := .get, url := api_base_url ++ "/admin/esthetician/approval_list",
    params := [("page", .num page), ("limit", .num limitArg)],
    authToken := some auth_token }

/-- The request `approve_esthetician` (app.py:290) issues. -/
def approve_esthetician_request (api_base_url auth_token esthetician_id : String)
    (is_approved : Bool) (reason_for_rejection : String) : HttpRequest :=
  { method := .put,
    url := api_base_url ++ ("/admin/approve_esthetician/" ++ esthetician_id),
    jsonBody := some (approve_esthetician_body is_approved reason_for_rejection),
    authToken := some auth_token }

/-- The request `analyze_skin_condition` (app.py:336 / app.py:341) issues:
multipart with the text as form data when an image is supplied, a JSON body
otherwise; no auth header in either branch. -/
def analyze_skin_condition_request (api_base_url text_input : String)
    (image_file : Option String) : HttpRequest :=
  match image_file with
  | some _ =>
    { method := .post, url := api_base_url ++ "/ai/analyze_skin",
      formData := [("text_input", text_input)], hasFiles := true }
  | none =>
    { method := .post, url := api_base_url ++ "/ai/analyze_skin",
      jsonBody := some (.obj [("text_input", .str text_input)]) }

/-- The request `get_quiz_recommendations` (app.py:357) issues. -/
def get_quiz_recommendations_request (api_base_url auth_token skin_type
    condition : String) : HttpRequest :=
  { method := .post, url := api_base_url ++ "/ai/diary_quiz_recommendation",
    jsonBody := some (.obj [("skin_type", .str skin_type),
                            ("condition", .str condition)]),
    authToken := some auth_token }

/-- The request `start_quiz` (app.py:372) issues. -/
def start_quiz_request (api_base_url auth_token quiz_id : String) : HttpRequest :=
  { method := .get, url := api_base_url ++ "/quiz/start_quiz",
    params := [("quiz_id", .str quiz_id)], authToken := some auth_token }

/-- The request `fetch_next_question` (app.py:394) issues. -/
def fetch_next_question_request (api_base_url auth_token quiz_id question_id
    response : String) (response_time : Int) : HttpRequest :=
  { method := .post, url := api_base_url ++ "/quiz/fetch_next",
    jsonBody := some (.obj [("quiz_id", .str quiz_id),
                            ("question_id", .str question_id),
                            ("response", .str response),
                            ("response_time", .num response_time)]),
    authToken := some auth_token }

/-- The request `submit_quiz` (app.py:406) issues. -/
def submit_quiz_request (api_base_url auth_token quiz_id : String) : HttpRequest :=
  { method := .post, url := api_base_url ++ "/quiz/submit",
    jsonBody := some (.obj [("quiz_id", .str quiz_id)]),
    authToken := some auth_token }

/-- The HTTP requests one call of `authenticate` performs: the body has a
single `requests.post`, executed once, with no loop or retry around it. -/
def authenticate_trace (api_url username password : String) : List HttpRequest :=
  [authenticate_request api_url username password]

/-- The HTTP requests one call of `create_quiz` performs (one
`requests.post`, app.py:131). -/
def create_quiz_trace (api_base_url auth_token : String) (quiz_data : JValue) :
    List HttpRequest :=
  [create_quiz_request api_base_url auth_token quiz_data]

/-- The HTTP requests one call of `get_all_quizzes` performs (one
`requests.get`, app.py:155). -/
def get_all_quizzes_trace (api_base_url auth_token : String) (page size : Int) :
    List HttpRequest :=
  [get_all_quizzes_request api_base_url auth_token page size]

/-- The HTTP requests one call of either `get_quiz_details` definition
performs (one `requests.get`). -/
def get_quiz_details_trace (api_base_url auth_token quiz_id : String) :
    List HttpRequest :=
  [get_quiz_details_request api_base_url auth_token quiz_id]

/-- The HTTP requests one call of `update_quiz` performs (one
`requests.put`, app.py:196). -/
def update_quiz_trace (api_base_url auth_token quiz_id : String)
    (quiz_data : JValue) : List HttpRequest :=
  [update_quiz_request api_base_url auth_token quiz_id quiz_data]

/-- The HTTP requests one call of `delete_quiz` performs (one
`requests.delete`, app.py:217). -/
def delete_quiz_trace (api_base_url auth_token quiz_id : String) :
    List HttpRequest :=
  [delete_quiz_request api_base_url auth_token quiz_id]

/-- The HTTP requests one call of `upload_puzzle` performs (one
`requests.post`, app.py:239). -/
def upload_puzzle_trace (api_base_url auth_token quiz_id : String) :
    List HttpRequest :=
  [upload_puzzle_request api_base_url auth_token quiz_id]

/-- The HTTP requests one call of `list_estheticians` performs (one
`requests.get`, app.py:261). -/
def list_estheticians_trace (api_base_url auth_token : String)
    (page limitArg : Int) : List HttpRequest :=
  [list_estheticians_request api_base_url auth_token page limitArg]

/-- The HTTP requests one call of `approve_esthetician` performs (one
`requests.put`, app.py:290). -/
def approve_esthetician_trace (api_base_url auth_token esthetician_id : String)
    (is_approved : Bool) (reason_for_rejection : String) : List HttpRequest :=
  [approve_esthetician_request api_base_url auth_token esthetician_id
    is_approved reason_for_rejection]

/-- The HTTP requests one call of `analyze_skin_condition` performs: exactly
one of the two `requests.post` calls (app.py:336 / app.py:341), depending on
whether an image was supplied. -/
def analyze_skin_condition_trace (api_base_url text_input : String)
    (image_file : Option String) : List HttpRequest :=
  [analyze_skin_condition_request api_base_url text_input image_file]

/-- The HTTP requests one call of `get_quiz_recommendations` performs (one
`requests.post`, app.py:357). -/
def get_quiz_recommendations_trace (api_base_url auth_token skin_type
    condition : String) : List HttpRequest :=
  [get_quiz_recommendations_request api_base_url auth_token skin_type condition]

/-- The HTTP requests one call of `start_quiz` performs (one `requests.get`,
app.py:372). -/
def start_quiz_trace (api_base_url auth_token quiz_id : String) :
    List HttpRequest :=
  [start_quiz_request api_base_url auth_token quiz_id]

/-- The HTTP requests one call of `fetch_next_question` performs (one
`requests.post`, app.py:394). -/
def fetch_next_question_trace (api_base_url auth_token quiz_id question_id
    response : String) (response_time : Int) : List HttpRequest :=
  [fetch_next_question_request api_base_url auth_token quiz_id question_id
    response response_time]

/-- The HTTP requests one call of `submit_quiz` performs (one
`requests.post`, app.py:406). -/
def submit_quiz_trace (api_base_url auth_token quiz_id : String) :
    List HttpRequest :=
  [submit_quiz_request api_base_url auth_token quiz_id]

/-- Replacing newlines by spaces is idempotent on character lists. -/
theorem map_newline_idem (l : List Char) :
    (l.map (fun c => if c = '\n' then ' ' else c)).map
        (fun c => if c = '\n' then ' ' else c)
      = l.map (fun c => if c = '\n' then ' ' else c) := by
  induction l with
  | nil => rfl
  | cons c cs ih =>
    have hc : (if (if c = '\n' then ' ' else c) = '\n' then ' '
        else if c = '\n' then ' ' else c) = (if c = '\n' then ' ' else c) := by
      by_cases h : c = '\n'
      · subst h; decide
      · simp [h]
    simp [List.map_cons, hc, ih]

/-- C10: `get_embedding` requests the embedding of the text with every
newline character replaced by a space, so an input and its
newline-to-space normalization produce equal embeddings. -/
theorem get_embedding_newline_invariant
    (oracle : String → Except String (List Rat)) (text : String) :
    get_embedding oracle text = get_embedding oracle (normalize_text text) := by
  have h : normalize_text (normalize_text text) = normalize_text text := by
    show (⟨(text.data.map _).map _⟩ : String) = ⟨text.data.map _⟩
    exact congrArg String.mk (map_newline_idem text.data)
  unfold get_embedding
  rw [h]

/-- C5: `create_quiz` and `update_quiz` transmit the given quiz data
verbatim as the JSON request body, with no local validation, normalization
or transformation. -/
theorem quiz_payload_sent_verbatim (api_base_url auth_token quiz_id : String)
    (quiz_data : JValue) :
    (create_quiz_request api_base_url auth_token quiz_data).jsonBody
        = some quiz_data ∧
    (update_quiz_request api_base_url auth_token quiz_id quiz_data).jsonBody
        = some quiz_data :=
  ⟨rfl, rfl⟩

/-- C9: `approve_esthetician` sends `reason_for_rejection = "N/A"` whenever
`is_approved` is true, independent of the supplied reason; the supplied
reason is transmitted only when `is_approved` is false; and the function
returns "true" exactly when the handled API response reports success,
"false" otherwise. -/
theorem approve_esthetician_spec (reason_for_rejection : String)
    (is_approved : Bool) (r : ReqResult) :
    jIndex (approve_esthetician_body true reason_for_rejection)
        "reason_for_rejection" = some (.str "N/A") ∧
    jIndex (approve_esthetician_body false reason_for_rejection)
        "reason_for_rejection" = some (.str reason_for_rejection) ∧
    jIndex (approve_esthetician_body is_approved reason_for_rejection)
        "is_approved" = some (.str (if is_approved then "true" else "false")) ∧
    approve_esthetician is_approved reason_for_rejection r
        = (if api_success r then "true" else "false") := by
  refine ⟨rfl, rfl, rfl, ?_⟩
  cases r with
  | exn e => rfl
  | resp status json =>
    simp only [approve_esthetician, api_success]
    by_cases hs : 400 ≤ status ∧ status < 600
    · rcases json with _ | body
      · simp [handle_api_response, hs.1, hs.2]
      · cases body <;> simp [handle_api_response, hs.1, hs.2]
    · rcases json with _ | body
      · simp [handle_api_response, hs]
      · simp only [handle_api_response, if_neg hs]
        cases htr : truthy body with
        | false => simp [htr]
        | true =>
          cases hg : jGet body "success" with
          | error e => simp [htr, hg]
          | ok s => cases hts : truthy (s.getD .null) <;> simp [htr, hg, hts]

/-- C6: every modeled remote-API wrapper issues exactly one HTTP request per
invocation — its body contains a single `requests.*` call with no loop or
retry around it — so no operation ever retries a failed remote call. -/
theorem wrappers_issue_at_most_one_request
    (api_base_url auth_token api_url username password quiz_id question_id
      response esthetician_id skin_type condition text_input
      reason_for_rejection : String)
    (page size limitArg response_time : Int) (quiz_data : JValue)
    (is_approved : Bool) (image_file : Option String) :
    (authenticate_trace api_url username password).length ≤ 1 ∧
    (create_quiz_trace api_base_url auth_token quiz_data).length ≤ 1 ∧
    (get_all_quizzes_trace api_base_url auth_token page size).length ≤ 1 ∧
    (get_quiz_details_trace api_base_url auth_token quiz_id).length ≤ 1 ∧
    (update_quiz_trace api_base_url auth_token quiz_id quiz_data).length ≤ 1 ∧
    (delete_quiz_trace api_base_url auth_token quiz_id).length ≤ 1 ∧
    (upload_puzzle_trace api_base_url auth_token quiz_id).length ≤ 1 ∧
    (list_estheticians_trace api_base_url auth_token page limitArg).length ≤ 1 ∧
    (approve_esthetician_trace api_base_url auth_token esthetician_id
        is_approved reason_for_rejection).length ≤ 1 ∧
    (analyze_skin_condition_trace api_base_url text_input image_file).length ≤ 1 ∧
    (get_quiz_recommendations_trace api_base_url auth_token skin_type
        condition).length ≤ 1 ∧
    (start_quiz_trace api_base_url auth_token quiz_id).length ≤ 1 ∧
    (fetch_next_question_trace api_base_url auth_token quiz_id question_id
        response response_time).length ≤ 1 ∧
    (submit_quiz_trace api_base_url auth_token quiz_id).length ≤ 1 :=
  ⟨Nat.le.refl, Nat.le.refl, Nat.le.refl, Nat.le.refl, Nat.le.refl,
   Nat.le.refl, Nat.le.refl, Nat.le.refl, Nat.le.refl, Nat.le.refl,
   Nat.le.refl, Nat.le.refl, Nat.le.refl, Nat.le.refl⟩

/-- C7: every modeled HTTP request targets a URL formed by joining the
single fixed base URL with that operation's endpoint path; in particular
the login call receives `api_base_url ++ "/user/login"` from
`show_login_page`. -/
theorem requests_target_fixed_base_url
    (api_base_url auth_token username password quiz_id question_id response
      esthetician_id skin_type condition text_input reason_for_rejection : String)
    (page size limitArg response_time : Int) (quiz_data : JValue)
    (is_approved : Bool) (image_file : Option String) :
    (authenticate_request (show_login_page_api_url api_base_url) username
        password).url = api_base_url ++ "/user/login" ∧
    (create_quiz_request api_base_url auth_token quiz_data).url
        = api_base_url ++ "/quiz/create" ∧
    (get_all_quizzes_request api_base_url auth_token page size).url
        = api_base_url ++ "/quiz/list" ∧
    (get_quiz_details_request api_base_url auth_token quiz_id).url
        = api_base_url ++ ("/quiz/" ++ quiz_id) ∧
    (update_quiz_request api_base_url auth_token quiz_id quiz_data).url
        = api_base_url ++ ("/quiz/" ++ quiz_id) ∧
    (delete_quiz_request api_base_url auth_token quiz_id).url
        = api_base_url ++ ("/quiz/" ++ quiz_id) ∧
    (upload_puzzle_request api_base_url auth_token quiz_id).url
        = api_base_url ++ "/admin/quiz/puzzle/upload" ∧
    (list_estheticians_request api_base_url auth_token page limitArg).url
        = api_base_url ++ "/admin/esthetician/approval_list" ∧
    (approve_esthetician_request api_base_url auth_token esthetician_id
        is_approved reason_for_rejection).url
        = api_base_url ++ ("/admin/approve_esthetician/" ++ esthetician_id) ∧
    (analyze_skin_condition_request api_base_url text_input image_file).url
        = api_base_url ++ "/ai/analyze_skin" ∧
    (get_quiz_recommendations_request api_base_url auth_token skin_type
        condition).url = api_base_url ++ "/ai/diary_quiz_recommendation" ∧
    (start_quiz_request api_base_url auth_token quiz_id).url
        = api_base_url ++ "/quiz/start_quiz" ∧
    (fetch_next_question_request api_base_url auth_token quiz_id question_id
        response response_time).url = api_base_url ++ "/quiz/fetch_next" ∧
    (submit_quiz_request api_base_url auth_token quiz_id).url
        = api_base_url ++ "/quiz/submit" :=
  ⟨rfl, rfl, rfl, rfl, rfl, rfl, rfl, rfl, rfl,
   by cases image_file <;> rfl, rfl, rfl, rfl, rfl⟩

/-- C1: `check_similarity` performs a single nearest-neighbor lookup with
`top_k = 1`; it returns the matched question's stored metadata text together
with its score exactly when the index is available, the query returns a
first match with score strictly greater than the threshold, and the match's
metadata carries the question; in every other case it returns
`(None, None)`. -/
theorem check_similarity_spec (indexAvailable : Bool)
    (embedding : Option (List Rat)) (queryOracle : PineconeQuery → QueryOutcome)
    (threshold : Rat) :
    (check_similarity_query embedding).top_k = 1 ∧
    (∀ q s, check_similarity indexAvailable embedding queryOracle threshold
        = (some q, some s) →
      indexAvailable = true ∧ ∃ m ms,
        queryOracle (check_similarity_query embedding) = .ok (m :: ms) ∧
        threshold < m.score ∧ s = m.score ∧
        jIndex m.metadata "question" = some q) ∧
    (∀ m ms q, indexAvailable = true →
      queryOracle (check_similarity_query embedding) = .ok (m :: ms) →
      threshold < m.score → jIndex m.metadata "question" = some q →
      check_similarity indexAvailable embedding queryOracle threshold
        = (some q, some m.score)) ∧
    (check_similarity indexAvailable embedding queryOracle threshold
        = (none, none) ∨
      ∃ q s, check_similarity indexAvailable embedding queryOracle threshold
        = (some q, some s)) := by
  refine ⟨rfl, ?_, ?_, ?_⟩
  · intro q s h
    unfold check_similarity at h
    cases indexAvailable with
    | false => simp at h
    | true =>
      simp only [if_true] at h
      refine ⟨rfl, ?_⟩
      cases ho : queryOracle (check_similarity_query embedding) with
      | err msg => rw [ho] at h; simp at h
      | ok found =>
        rw [ho] at h
        cases found with
        | nil => simp at h
        | cons m ms =>
          by_cases hlt : threshold < m.score
          · cases hq : jIndex m.metadata "question" with
            | none => simp [hlt, hq] at h
            | some q0 =>
              simp only [hlt, hq, if_true] at h
              simp only [Prod.mk.injEq, Option.some.injEq] at h
              exact ⟨m, ms, rfl, hlt, h.2.symm, by rw [hq, h.1]⟩
          · simp [hlt] at h
  · intro m ms q hia ho hlt hq
    subst hia
    unfold check_similarity
    rw [if_pos rfl, ho]
    simp [hlt, hq]
  · unfold check_similarity
    cases indexAvailable with
    | false => exact Or.inl (by simp)
    | true =>
      simp only [if_true]
      cases queryOracle (check_similarity_query embedding) with
      | err msg => exact Or.inl rfl
      | ok found =>
        cases found with
        | nil => exact Or.inl rfl
        | cons m ms =>
          by_cases hlt : threshold < m.score
          · cases hq : jIndex m.metadata "question" with
            | none => exact Or.inl (by simp [hlt, hq])
            | some q0 => exact Or.inr ⟨q0, m.score, by simp [hlt, hq]⟩
          · exact Or.inl (by simp [hlt])

/-- A query oracle whose single nearest neighbor is the stored question
"dup" with score 1. -/
def dup_score_one_oracle : PineconeQuery → QueryOutcome :=
  fun _ => .ok [{ score := 1, metadata := .obj [("question", .str "dup")] }]

/-- Witness for C1: at a concrete high-scoring match, `check_similarity`
returns the stored question and its score. -/
theorem check_similarity_spec_witness :
    check_similarity true (some [1]) dup_score_one_oracle (6 / 10)
      = (some (.str "dup"), some 1) := by
  have h := (check_similarity_spec true (some [1]) dup_score_one_oracle
    (6 / 10)).2.2.1
  exact h { score := 1, metadata := .obj [("question", .str "dup")] } []
    (.str "dup") rfl rfl (by norm_num) rfl

/-- C4: `get_all_quizzes` forwards its page and size as query parameters,
returns the value found under `quizzes.items` when the status is 200, and
returns the empty list for every other status and for every exception
raised during the request. -/
theorem get_all_quizzes_spec :
    (∀ api_base_url auth_token page size,
      (get_all_quizzes_request api_base_url auth_token page size).params
        = [("page", .num page), ("size", .num size)]) ∧
    (∀ fs gs items, JValue.lookup fs "quizzes" = some (.obj gs) →
      JValue.lookup gs "items" = some items →
      get_all_quizzes (.resp 200 (some (.obj fs))) = items) ∧
    (∀ status json, status ≠ 200 →
      get_all_quizzes (.resp status json) = .arr []) ∧
    (∀ e, get_all_quizzes (.exn e) = .arr []) := by
  refine ⟨fun _ _ _ _ => rfl, ?_, ?_, fun _ => rfl⟩
  · intro fs gs items h1 h2
    simp [get_all_quizzes, jGetD, jGet, h1, h2]
  · intro status json h
    simp [get_all_quizzes, h]

/-- Witness for C4: a concrete 200 response yields the `quizzes.items`
list, and a concrete 404 yields the empty list. -/
theorem get_all_quizzes_spec_witness :
    get_all_quizzes (.resp 200 (some (.obj
        [("quizzes", .obj [("items", .arr [.str "q1"])])])))
      = .arr [.str "q1"] ∧
    get_all_quizzes (.resp 404 none) = .arr [] := by
  constructor
  · exact get_all_quizzes_spec.2.1 [("quizzes", .obj [("items", .arr [.str "q1"])])]
      [("items", .arr [.str "q1"])] (.arr [.str "q1"]) rfl rfl
  · exact get_all_quizzes_spec.2.2.1 404 none (by decide)

/-- C8: the effective `get_quiz_details` (the later of the two definitions,
which shadows the earlier one) returns the quiz payload exactly when the
status is 200 and the body's `success` field is truthy, returns `None` in
every other response case, and never returns the empty dict that the
shadowed earlier definition returns on a failing status. -/
theorem get_quiz_details_shadowing_spec (status : Nat)
    (fs : List (String × JValue)) :
    (status = 200 → truthy ((JValue.lookup fs "success").getD .null) = true →
      get_quiz_details (.resp status (some (.obj fs)))
        = .ok (some ((JValue.lookup fs "quiz").getD (.obj [])))) ∧
    (∀ v, get_quiz_details (.resp status (some (.obj fs))) = .ok (some v) →
      status = 200 ∧ truthy ((JValue.lookup fs "success").getD .null) = true ∧
        v = (JValue.lookup fs "quiz").getD (.obj [])) ∧
    (¬(status = 200 ∧ truthy ((JValue.lookup fs "success").getD .null) = true) →
      get_quiz_details (.resp status (some (.obj fs))) = .ok none) ∧
    (status ≠ 200 →
      get_quiz_details_v1 (.resp status (some (.obj fs))) = some (.obj []) ∧
      get_quiz_details (.resp status (some (.obj fs))) = .ok none) := by
  refine ⟨?_, ?_, ?_, ?_⟩
  · intro h200 hsucc
    subst h200
    simp [get_quiz_details, jGet, jGetD, hsucc]
  · intro v h
    unfold get_quiz_details at h
    by_cases h200 : status = 200
    · subst h200
      simp only [if_true] at h
      by_cases hsucc : truthy ((JValue.lookup fs "success").getD .null) = true
      · refine ⟨rfl, hsucc, ?_⟩
        simp [jGet, jGetD, hsucc] at h
        exact h.symm
      · simp [jGet, hsucc] at h
    · simp [h200] at h
  · intro hnot
    by_cases h200 : status = 200
    · subst h200
      have hsucc : truthy ((JValue.lookup fs "success").getD .null) = false := by
        cases hx : truthy ((JValue.lookup fs "success").getD .null) with
        | false => rfl
        | true => exact absurd ⟨rfl, hx⟩ hnot
      simp [get_quiz_details, jGet, hsucc]
    · simp [get_quiz_details, h200]
  · intro h200
    exact ⟨by simp [get_quiz_details_v1, h200], by simp [get_quiz_details, h200]⟩

/-- Witness for C8: a concrete successful response yields the quiz payload,
and a concrete 404 yields `None` from the effective definition while the
shadowed one would yield the empty dict. -/
theorem get_quiz_details_shadowing_spec_witness :
    get_quiz_details (.resp 200 (some (.obj
        [("success", .bool true), ("quiz", .str "Q")])))
      = .ok (some (.str "Q")) ∧
    get_quiz_details (.resp 404 (some (.obj []))) = .ok none ∧
    get_quiz_details_v1 (.resp 404 (some (.obj []))) = some (.obj []) := by
  refine ⟨?_, ?_, ?_⟩
  · exact (get_quiz_details_shadowing_spec 200
      [("success", .bool true), ("quiz", .str "Q")]).1 rfl rfl
  · exact ((get_quiz_details_shadowing_spec 404 []).2.2.2 (by decide)).2
  · exact ((get_quiz_details_shadowing_spec 404 []).2.2.2 (by decide)).1

/-- A concrete in-progress quiz with one section and one empty subsection. -/
def sample_new_quiz : NewQuiz :=
  { quiz_title := "Skin Quiz",
    sections := [{ section_name := "S1",
                   subsections := [{ subsection_name := "U1",
                                     questions := [] }] }] }

/-- An embedding service returning the vector `[1]` for every text. -/
def unit_embed_oracle : String → Except String (List Rat) := fun _ => .ok [1]

/-- A query oracle whose single match has score 1 and stores the
empty-string question text in its metadata. -/
def empty_text_match_oracle : PineconeQuery → QueryOutcome :=
  fun _ => .ok [{ score := 1, metadata := .obj [("question", .str "")] }]

/-- C2 counterexample: the similarity gate reports a similar existing
question (the empty string, with score 1 > 0.6), yet the "Add Question"
handler appends the new question anyway, because `if similar_question:`
tests Python truthiness of the returned text, not its presence. -/
theorem add_question_appended_despite_similar :
    check_similarity true (get_embedding unit_embed_oracle "How oily is it")
        empty_text_match_oracle similarity_threshold_default
      = (some (.str ""), some 1) ∧
    add_question_click sample_new_quiz 0 0 "How oily is it" true
        unit_embed_oracle empty_text_match_oracle
      = { quiz_title := "Skin Quiz",
          sections := [{ section_name := "S1",
                         subsections := [{ subsection_name := "U1",
                                           questions := ["How oily is it"] }] }] } ∧
    ({ quiz_title := "Skin Quiz",
       sections := [{ section_name := "S1",
                      subsections := [{ subsection_name := "U1",
                                        questions := ["How oily is it"] }] }] }
      : NewQuiz) ≠ sample_new_quiz := by
  refine ⟨?_, ?_, by decide⟩
  · have h : similarity_threshold_default < (1 : Rat) := by
      unfold similarity_threshold_default; norm_num
    simp [check_similarity, empty_text_match_oracle, h, jIndex, JValue.lookup]
  · have h : similarity_threshold_default < (1 : Rat) := by
      unfold similarity_threshold_default; norm_num
    simp [add_question_click, get_embedding, unit_embed_oracle, check_similarity,
      empty_text_match_oracle, h, jIndex, JValue.lookup, jtruthy, truthy,
      appendQuestion, listModify, sample_new_quiz]
    rfl

/-- C2 amended: for a non-empty question text, the question is appended to
its subsection exactly when the similarity gate's reported question is
falsy — `None` or an untruthy (empty) text; when the reported question is
truthy, the in-progress quiz is left entirely unchanged. -/
theorem add_question_gate (quiz : NewQuiz) (si ssi : Nat)
    (question_text : String) (hne : question_text.isEmpty = false) (ia : Bool)
    (embedOracle : String → Except String (List Rat))
    (queryOracle : PineconeQuery → QueryOutcome) :
    (jtruthy (check_similarity ia (get_embedding embedOracle question_text)
        queryOracle similarity_threshold_default).1 = true →
      add_question_click quiz si ssi question_text ia embedOracle queryOracle
        = quiz) ∧
    (jtruthy (check_similarity ia (get_embedding embedOracle question_text)
        queryOracle similarity_threshold_default).1 = false →
      add_question_click quiz si ssi question_text ia embedOracle queryOracle
        = appendQuestion quiz si ssi question_text) := by
  constructor
  · intro h
    simp [add_question_click, hne, h]
  · intro h
    simp [add_question_click, hne, h]

/-- A query oracle whose single match has score 1 and stores the non-empty
question text "existing question". -/
def nonempty_match_oracle : PineconeQuery → QueryOutcome :=
  fun _ => .ok [{ score := 1, metadata := .obj [("question", .str "existing question")] }]

/-- Witness for the amended C2: with a truthy reported similar question the
handler leaves the quiz unchanged. -/
theorem add_question_gate_witness :
    add_question_click sample_new_quiz 0 0 "Q" true unit_embed_oracle
        nonempty_match_oracle = sample_new_quiz := by
  have h := (add_question_gate sample_new_quiz 0 0 "Q" rfl true
    unit_embed_oracle nonempty_match_oracle).1
  apply h
  have hlt : similarity_threshold_default < (1 : Rat) := by
    unfold similarity_threshold_default; norm_num
  simp [check_similarity, nonempty_match_oracle, get_embedding,
    unit_embed_oracle, hlt, jIndex, JValue.lookup, jtruthy, truthy]
  rfl

/-- C3 counterexample: `fetch_next_question` has no `try/except` around its
remote call, so an exception raised while making the request propagates to
the caller instead of being caught and converted to the `None` sentinel. -/
theorem fetch_next_question_uncaught_exception :
    fetch_next_question (.exn "ConnectionError") = .error "ConnectionError" ∧
    (Except.error "ConnectionError" : Except String (Option JValue))
      ≠ .ok none :=
  ⟨rfl, fun h => nomatch h⟩

/-- On a 4xx/5xx status `handle_api_response` either returns `None` or
raises (no value ever comes back). -/
theorem handle_api_response_client_error (status : Nat) (json : Option JValue)
    (h4 : 400 ≤ status) (h6 : status < 600) :
    handle_api_response status json = .ok none ∨
      ∃ msg, handle_api_response status json = .error msg := by
  unfold handle_api_response
  rw [if_pos ⟨h4, h6⟩]
  rcases json with _ | body
  · exact Or.inr ⟨_, rfl⟩
  · cases body with
    | obj fs => exact Or.inl rfl
    | null => exact Or.inr ⟨_, rfl⟩
    | bool b => exact Or.inr ⟨_, rfl⟩
    | num n => exact Or.inr ⟨_, rfl⟩
    | str s => exact Or.inr ⟨_, rfl⟩
    | arr xs => exact Or.inr ⟨_, rfl⟩

/-- C3 amended: the wrappers whose remote call sits inside `try/except`
(`create_quiz`, `get_all_quizzes`, the earlier `get_quiz_details`,
`update_quiz`, `delete_quiz`, `upload_puzzle`, `list_estheticians`,
`approve_esthetician`, `start_quiz`, `authenticate`) catch request
exceptions and return their failure sentinel; the wrappers that test
`status == 200` return their sentinel on every other status, while the
`raise_for_status`-based ones do so on every 4xx/5xx status (the only
statuses `raise_for_status` raises for); but `analyze_skin_condition`,
`get_quiz_recommendations`, `fetch_next_question`, `submit_quiz`, and the
effective `get_quiz_details` propagate request exceptions to their caller
uncaught. -/
theorem remote_failure_handling (e : String) (status : Nat)
    (json : Option JValue) (is_approved : Bool)
    (reason_for_rejection : String) :
    (create_quiz (.exn e) = none ∧ get_all_quizzes (.exn e) = .arr [] ∧
     get_quiz_details_v1 (.exn e) = some (.obj []) ∧
     update_quiz (.exn e) = none ∧ delete_quiz (.exn e) = false ∧
     upload_puzzle (.exn e) = none ∧ list_estheticians (.exn e) = .arr [] ∧
     approve_esthetician is_approved reason_for_rejection (.exn e) = "false" ∧
     start_quiz (.exn e) = none ∧ authenticate (.exn e) = none) ∧
    (analyze_skin_condition (.exn e) = .error e ∧
     get_quiz_recommendations (.exn e) = .error e ∧
     fetch_next_question (.exn e) = .error e ∧
     submit_quiz (.exn e) = .error e ∧
     get_quiz_details (.exn e) = .error e) ∧
    (status ≠ 200 →
      analyze_skin_condition (.resp status json) = .ok none ∧
      get_quiz_recommendations (.resp status json) = .ok none ∧
      fetch_next_question (.resp status json) = .ok none ∧
      submit_quiz (.resp status json) = .ok none ∧
      get_quiz_details (.resp status json) = .ok none ∧
      update_quiz (.resp status json) = none ∧
      get_all_quizzes (.resp status json) = .arr [] ∧
      get_quiz_details_v1 (.resp status json) = some (.obj []) ∧
      start_quiz (.resp status json) = none) ∧
    (400 ≤ status → status < 600 →
      create_quiz (.resp status json) = none ∧
      delete_quiz (.resp status json) = false ∧
      upload_puzzle (.resp status json) = none ∧
      list_estheticians (.resp status json) = .arr [] ∧
      approve_esthetician is_approved reason_for_rejection (.resp status json)
        = "false" ∧
      authenticate (.resp status json) = none) := by
  refine ⟨⟨rfl, rfl, rfl, rfl, rfl, rfl, rfl, rfl, rfl, rfl⟩,
    ⟨rfl, rfl, rfl, rfl, rfl⟩, ?_, ?_⟩
  · intro h
    refine ⟨?_, ?_, ?_, ?_, ?_, ?_, ?_, ?_, ?_⟩ <;>
      simp [analyze_skin_condition, get_quiz_recommendations,
        fetch_next_question, submit_quiz, get_quiz_details, update_quiz,
        get_all_quizzes, get_quiz_details_v1, start_quiz, h]
  · intro h4 h6
    rcases handle_api_response_client_error status json h4 h6
        with h' | ⟨msg, h'⟩ <;>
      refine ⟨?_, ?_, ?_, ?_, ?_, ?_⟩ <;>
      simp [create_quiz, delete_quiz, upload_puzzle, list_estheticians,
        approve_esthetician, authenticate, h', h4, h6]

/-- Witness for the amended C3: concrete failing statuses map to the
sentinels. -/
theorem remote_failure_handling_witness :
    fetch_next_question (.resp 500 none) = .ok none ∧
    create_quiz (.resp 404 none) = none := by
  constructor
  · exact ((remote_failure_handling "x" 500 none true "r").2.2.1
      (by decide)).2.2.1
  · exact ((remote_failure_handling "x" 404 none true "r").2.2.2
      (by decide) (by decide)).1
